import Mathlib

/-!
Shallow embedding of src/demo.py (a MongoDB vector-search demo script).

The script is a single orchestration function.  We embed it as a
deterministic interpreter that, given an environment describing the
behaviour of the two external collaborators (the document store and the
embedding service) together with the operator answers, produces the trace
of externally observable actions the script performs.  The index status
reported by the store is a function of a logical clock that advances at
each store observation, so the status may change between observations,
exactly as for the real asynchronous index build.
-/

-- Configuration constants of demo.py (lines 19-24).
def ATLAS_CONNECTION_STRING : String :=
  "mongodb://localhost:27017/?retryWrites=true&w=majority&directConnection=true"

def DB_NAME : String := "sample_mflix"

def COLLECTION_NAME : String := "embedded_movies"

def INDEX_NAME : String := "vector_index_plot"

def VECTOR_FIELD_PATH : String := "plot_embedding"

def VECTOR_DIMENSIONS : Nat := 1536

-- The fixed query text of demo.py line 127.
def QUERY_TEXT : String := "A tale of redemption and friendship in a prison."

/-- Kind of an OperationFailure raised inside the index step of demo.py
(lines 83-106), as classified by the handler at lines 107-113: the
message either contains already exists (warn and fall through) or it
does not (report and return). -/
inductive OpFailure where
  | alreadyExists
  | other
  deriving DecidableEq, Repr

/-- Externally observable actions of the script, in order of occurrence.
The vectorSearch event records the aggregation parameters together with
the index status the store holds at the moment the query is issued.
listRaise records a list_search_indexes call (demo.py line 85 or 93)
that raises instead of returning. -/
inductive Event where
  | connect
  | checkListing
  | createIndex
  | observe (s : Option String)
  | sleep (d : Nat)
  | promptSearch (ans : String)
  | azureInit
  | embedCall (text : String)
  | vectorSearch (index path : String) (qv : List Int)
      (numCandidates lim : Nat) (st : Option String)
  | displayListing
  | promptDrop (ans : String)
  | dropIndex
  | closeConn
  | listRaise (f : OpFailure)
  deriving DecidableEq, Repr

/-- Outcome of the create_search_index call (demo.py lines 89 and 107-113):
it succeeds, or raises OperationFailure whose message contains
"already exists", or raises any other OperationFailure. -/
inductive CreateOutcome where
  | ok
  | alreadyExists
  | otherFailure
  deriving DecidableEq, Repr

/-- How a phase of the script ends: fall through to the next step,
return from main (the finally block still runs), or the poll loop has not
yet reached a terminal observation within the modelled fuel. -/
inductive StepOutcome where
  | proceed
  | abort
  | divergent
  deriving DecidableEq, Repr

/-- Environment: the behaviour of the external world during one run.
statusAt gives the status the store reports for INDEX_NAME at each
logical observation instant (none when the listing is empty).  pollFuel
bounds how many poll observations the model unrolls; the real loop of
demo.py has no bound. -/
structure Env where
  connStr : String
  ctorOk : Bool
  pingOk : Bool
  statusAt : Nat → Option String
  createOutcome : CreateOutcome
  pollFuel : Nat
  searchAnswer : String
  azureInitOk : Bool
  embedResult : Option (List Int)
  displayOk : Bool
  dropAnswer : String

/-- Character-list test: the first list is an initial segment of the
second (used to express Python substring containment). -/
def charsStartWith : List Char → List Char → Bool
  | [], _ => true
  | _ :: _, [] => false
  | a :: as, b :: bs => a == b && charsStartWith as bs

/-- Character-list test: the first list occurs contiguously inside the
second (the Python in operator on strings). -/
def charsContain (pat : List Char) : List Char → Bool
  | [] => charsStartWith pat []
  | b :: bs => charsStartWith pat (b :: bs) || charsContain pat bs

/-- The placeholder test of demo.py line 53: the marker is a substring of
the connection string. -/
def containsPlaceholder (s : String) : Bool :=
  charsContain "<username>".data s.data

/-- The affirmative test of demo.py lines 116-117 and 165-166:
the answer, lowercased, equals yes. -/
def answerIsYes (ans : String) : Bool :=
  ans.data.map Char.toLower == "yes".data

/-- The monitoring loop of demo.py lines 92-106: list the index by name;
an empty listing or a non-terminal status sleeps 10 and polls again;
READY breaks out (proceed), FAILED returns from main (abort).  The Nat
argument before the clock is fuel bounding the unrolling. -/
def pollLoop (stat : Nat → Option String) : Nat → Nat → List Event × StepOutcome × Nat
  | 0, t => ([], StepOutcome.divergent, t)
  | fuel + 1, t =>
    match stat t with
    | none =>
      let r := pollLoop stat fuel (t + 1)
      (Event.observe none :: Event.sleep 10 :: r.1, r.2.1, r.2.2)
    | some s =>
      if s = "READY" then ([Event.observe (some s)], StepOutcome.proceed, t + 1)
      else if s = "FAILED" then ([Event.observe (some s)], StepOutcome.abort, t + 1)
      else
        let r := pollLoop stat fuel (t + 1)
        (Event.observe (some s) :: Event.sleep 10 :: r.1, r.2.1, r.2.2)

/-- The index step of demo.py lines 82-113: list existing index names; if
INDEX_NAME is present skip creation entirely; otherwise create and
monitor.  A create failing with already exists is tolerated and falls
through; any other create failure returns from main. -/
def indexStep (env : Env) : List Event × StepOutcome × Nat :=
  if (env.statusAt 0).isSome then
    ([Event.checkListing], StepOutcome.proceed, 1)
  else
    match env.createOutcome with
    | CreateOutcome.ok =>
      let r := pollLoop env.statusAt env.pollFuel 1
      (Event.checkListing :: Event.createIndex :: r.1, r.2.1, r.2.2)
    | CreateOutcome.alreadyExists =>
      ([Event.checkListing, Event.createIndex], StepOutcome.proceed, 1)
    | CreateOutcome.otherFailure =>
      ([Event.checkListing, Event.createIndex], StepOutcome.abort, 1)

/-- The search step of demo.py lines 116-158: prompt; on an affirmative
answer construct the Azure client, call the embedding, and when the
returned vector is truthy run the aggregation with numCandidates 150 and
limit 5.  Every failure inside is caught and falls through. -/
def searchStep (env : Env) (t : Nat) : List Event :=
  let pe := Event.promptSearch env.searchAnswer
  if answerIsYes env.searchAnswer then
    if env.azureInitOk then
      match env.embedResult with
      | none => [pe, Event.azureInit, Event.embedCall QUERY_TEXT]
      | some v =>
        if v.isEmpty then [pe, Event.azureInit, Event.embedCall QUERY_TEXT]
        else [pe, Event.azureInit, Event.embedCall QUERY_TEXT,
          Event.vectorSearch INDEX_NAME VECTOR_FIELD_PATH v 150 5 (env.statusAt t)]
    else [pe, Event.azureInit]
  else [pe]

/-- The listing and drop step of demo.py lines 160-171: list indexes for
display; when that call raises, the outer handler catches and the drop
prompt is skipped; otherwise prompt and drop on an affirmative answer. -/
def displayDropSteps (env : Env) : List Event :=
  Event.displayListing ::
    (if env.displayOk then
      Event.promptDrop env.dropAnswer ::
        (if answerIsYes env.dropAnswer then [Event.dropIndex] else [])
    else [])

/-- The whole of demo.py main (lines 43-182): placeholder check, client
construction, ping, index step, optional search, listing, optional drop,
and the finally block closing an established connection.  (Lean reserves
the name main for entry points, hence mainRun.) -/
def mainRun (env : Env) : List Event :=
  if env.connStr.data.isEmpty || containsPlaceholder env.connStr then []
  else if !env.ctorOk then []
  else if !env.pingOk then [Event.connect, Event.closeConn]
  else
    let r := indexStep env
    match r.2.1 with
    | StepOutcome.abort => Event.connect :: (r.1 ++ [Event.closeConn])
    | StepOutcome.divergent => Event.connect :: r.1
    | StepOutcome.proceed =>
      Event.connect ::
        (r.1 ++ searchStep env r.2.2 ++ displayDropSteps env ++ [Event.closeConn])

/-!
Refined model: in demo.py the list_search_indexes calls of the index step
(line 85, the existence check, and line 93, each poll observation) sit
inside the same try block as the create, so they too can raise an
OperationFailure that the handler at lines 107-113 classifies by message.
The definitions below extend the environment with a failure oracle for
those listing calls; the plain model above is the no-failure fragment
(lemma mainRunF_no_fail).
-/

/-- How one run of the monitoring loop body ends in the refined model:
regular loop ends as before, or a poll listing call raised. -/
inductive PollEnd where
  | ready
  | failed
  | raised (f : OpFailure)
  | divergent
  deriving DecidableEq, Repr

/-- Environment of the refined model: as Env, plus an oracle saying
whether the listing call at logical instant t (0 for the existence check
of line 85, later instants for the poll observations of line 93) raises
an OperationFailure and of which kind. -/
structure EnvF extends Env where
  listFailAt : Nat → Option OpFailure

/-- The handler of demo.py lines 107-113 applied to an OperationFailure
from the index step: a message containing already exists is a warning and
the run falls through to the search step; anything else is reported and
main returns. -/
def handleFailure : OpFailure → StepOutcome
  | OpFailure.alreadyExists => StepOutcome.proceed
  | OpFailure.other => StepOutcome.abort

/-- The monitoring loop of demo.py lines 92-106 in the refined model:
each iteration first issues the listing call of line 93, which either
raises (ending the loop with that failure, no sleep) or returns, in which
case the loop behaves as pollLoop. -/
def pollLoopF (stat : Nat → Option String) (lf : Nat → Option OpFailure) :
    Nat → Nat → List Event × PollEnd × Nat
  | 0, t => ([], PollEnd.divergent, t)
  | fuel + 1, t =>
    match lf t with
    | some f => ([Event.listRaise f], PollEnd.raised f, t + 1)
    | none =>
      match stat t with
      | none =>
        let r := pollLoopF stat lf fuel (t + 1)
        (Event.observe none :: Event.sleep 10 :: r.1, r.2.1, r.2.2)
      | some s =>
        if s = "READY" then ([Event.observe (some s)], PollEnd.ready, t + 1)
        else if s = "FAILED" then ([Event.observe (some s)], PollEnd.failed, t + 1)
        else
          let r := pollLoopF stat lf fuel (t + 1)
          (Event.observe (some s) :: Event.sleep 10 :: r.1, r.2.1, r.2.2)

/-- How the loop end maps to the index-step outcome: READY breaks to the
search step, FAILED returns from main (line 105), a raised
OperationFailure goes to the handler of lines 107-113. -/
def pollEndOutcome : PollEnd → StepOutcome
  | PollEnd.ready => StepOutcome.proceed
  | PollEnd.failed => StepOutcome.abort
  | PollEnd.raised f => handleFailure f
  | PollEnd.divergent => StepOutcome.divergent

/-- The index step of demo.py lines 82-113 in the refined model: the
existence check of line 85 may itself raise, landing in the handler of
lines 107-113; otherwise as indexStep, with the fallible loop. -/
def indexStepF (env : EnvF) : List Event × StepOutcome × Nat :=
  match env.listFailAt 0 with
  | some f => ([Event.listRaise f], handleFailure f, 1)
  | none =>
    if (env.statusAt 0).isSome then
      ([Event.checkListing], StepOutcome.proceed, 1)
    else
      match env.createOutcome with
      | CreateOutcome.ok =>
        let r := pollLoopF env.statusAt env.listFailAt env.pollFuel 1
        (Event.checkListing :: Event.createIndex :: r.1, pollEndOutcome r.2.1, r.2.2)
      | CreateOutcome.alreadyExists =>
        ([Event.checkListing, Event.createIndex], StepOutcome.proceed, 1)
      | CreateOutcome.otherFailure =>
        ([Event.checkListing, Event.createIndex], StepOutcome.abort, 1)

/-- The whole of demo.py main in the refined model, differing from
mainRun only in the index step. -/
def mainRunF (env : EnvF) : List Event :=
  if env.connStr.data.isEmpty || containsPlaceholder env.connStr then []
  else if !env.ctorOk then []
  else if !env.pingOk then [Event.connect, Event.closeConn]
  else
    let r := indexStepF env
    match r.2.1 with
    | StepOutcome.abort => Event.connect :: (r.1 ++ [Event.closeConn])
    | StepOutcome.divergent => Event.connect :: r.1
    | StepOutcome.proceed =>
      Event.connect ::
        (r.1 ++ searchStep env.toEnv r.2.2 ++ displayDropSteps env.toEnv ++
          [Event.closeConn])

-- Event classifiers.

def isObserve : Event → Bool
  | Event.observe _ => true
  | _ => false

def isSearchEv : Event → Bool
  | Event.vectorSearch _ _ _ _ _ _ => true
  | _ => false

def isConnectEv : Event → Bool
  | Event.connect => true
  | _ => false

def isCloseEv : Event → Bool
  | Event.closeConn => true
  | _ => false

def isCreateEv : Event → Bool
  | Event.createIndex => true
  | _ => false

/-- A status on which the poll loop of demo.py stops. -/
def isTerminalStatus : Option String → Bool
  | some s => s = "READY" || s = "FAILED"
  | none => false

/-- Shape of a poll-loop trace: observations separated by the fixed sleep
of 10 time units, possibly ending right after an observation. -/
def pollShape : List Event → Bool
  | [] => true
  | [Event.observe _] => true
  | Event.observe _ :: Event.sleep 10 :: rest => pollShape rest
  | _ => false

-- Helper lemmas about the poll loop.

theorem pollLoop_mem (stat : Nat → Option String) :
    ∀ fuel t e, e ∈ (pollLoop stat fuel t).1 →
      (∃ s, e = Event.observe s) ∨ e = Event.sleep 10 := by
  intro fuel
  induction fuel with
  | zero =>
    intro t e h
    simp [pollLoop] at h
  | succ n ih =>
    intro t e h
    rcases hs : stat t with _ | s
    · simp only [pollLoop, hs, List.mem_cons] at h
      rcases h with rfl | rfl | h
      · exact Or.inl ⟨none, rfl⟩
      · exact Or.inr rfl
      · exact ih (t + 1) e h
    · simp only [pollLoop, hs] at h
      by_cases hR : s = "READY"
      · rw [if_pos hR] at h
        simp only [List.mem_singleton] at h
        exact Or.inl ⟨some s, h⟩
      · rw [if_neg hR] at h
        by_cases hF : s = "FAILED"
        · rw [if_pos hF] at h
          simp only [List.mem_singleton] at h
          exact Or.inl ⟨some s, h⟩
        · rw [if_neg hF] at h
          simp only [List.mem_cons] at h
          rcases h with rfl | rfl | h
          · exact Or.inl ⟨some s, rfl⟩
          · exact Or.inr rfl
          · exact ih (t + 1) e h

theorem pollLoop_countP_zero (stat : Nat → Option String) (p : Event → Bool)
    (hobs : ∀ s, p (Event.observe s) = false) (hsl : p (Event.sleep 10) = false)
    (fuel t : Nat) : ((pollLoop stat fuel t).1.countP p) = 0 := by
  rw [List.countP_eq_zero]
  intro e he
  rcases pollLoop_mem stat fuel t e he with ⟨s, rfl⟩ | rfl
  · simp [hobs]
  · simp [hsl]

theorem pollLoop_proceed_ready (stat : Nat → Option String) :
    ∀ fuel t, (pollLoop stat fuel t).2.1 = StepOutcome.proceed →
      Event.observe (some "READY") ∈ (pollLoop stat fuel t).1 := by
  intro fuel
  induction fuel with
  | zero =>
    intro t h
    simp [pollLoop] at h
  | succ n ih =>
    intro t h
    rcases hs : stat t with _ | s
    · simp only [pollLoop, hs] at h ⊢
      exact List.mem_cons_of_mem _ (List.mem_cons_of_mem _ (ih (t + 1) h))
    · simp only [pollLoop, hs] at h ⊢
      by_cases hR : s = "READY"
      · rw [if_pos hR]
        rw [hR]
        exact List.mem_singleton.mpr rfl
      · rw [if_neg hR] at h ⊢
        by_cases hF : s = "FAILED"
        · rw [if_pos hF] at h
          simp at h
        · rw [if_neg hF] at h ⊢
          exact List.mem_cons_of_mem _ (List.mem_cons_of_mem _ (ih (t + 1) h))

-- Helper lemmas about the index step.

theorem indexStep_mem (env : Env) (e : Event) (h : e ∈ (indexStep env).1) :
    e = Event.checkListing ∨ e = Event.createIndex ∨
      (∃ s, e = Event.observe s) ∨ e = Event.sleep 10 := by
  unfold indexStep at h
  by_cases hp : (env.statusAt 0).isSome
  · rw [if_pos hp] at h
    simp only [List.mem_singleton] at h
    exact Or.inl h
  · rw [if_neg hp] at h
    cases hc : env.createOutcome <;> simp only [hc] at h
    · simp only [List.mem_cons] at h
      rcases h with rfl | rfl | h
      · exact Or.inl rfl
      · exact Or.inr (Or.inl rfl)
      · exact Or.inr (Or.inr (pollLoop_mem env.statusAt env.pollFuel 1 e h))
    · simp at h
      tauto
    · simp at h
      tauto

theorem indexStep_countP_zero (env : Env) (p : Event → Bool)
    (hck : p Event.checkListing = false) (hcr : p Event.createIndex = false)
    (hobs : ∀ s, p (Event.observe s) = false) (hsl : p (Event.sleep 10) = false) :
    ((indexStep env).1.countP p) = 0 := by
  rw [List.countP_eq_zero]
  intro e he
  rcases indexStep_mem env e he with rfl | rfl | ⟨s, rfl⟩ | rfl <;>
    simp [hck, hcr, hobs, hsl]

theorem indexStep_create_le_one (env : Env) :
    ((indexStep env).1.countP isCreateEv) ≤ 1 := by
  unfold indexStep
  by_cases hp : (env.statusAt 0).isSome
  · rw [if_pos hp]
    simp [isCreateEv]
  · rw [if_neg hp]
    cases hc : env.createOutcome
    · simp only [List.countP_cons]
      rw [pollLoop_countP_zero env.statusAt isCreateEv (fun s => rfl) rfl]
      simp [isCreateEv]
    · simp [List.countP_cons, isCreateEv]
    · simp [List.countP_cons, isCreateEv]

-- Helper lemmas about the search step.

theorem searchStep_mem (env : Env) (t : Nat) (e : Event) (h : e ∈ searchStep env t) :
    e = Event.promptSearch env.searchAnswer ∨ e = Event.azureInit ∨
      e = Event.embedCall QUERY_TEXT ∨
      ∃ v, e = Event.vectorSearch INDEX_NAME VECTOR_FIELD_PATH v 150 5 (env.statusAt t) := by
  by_cases hy : answerIsYes env.searchAnswer
  · by_cases ha : env.azureInitOk
    · cases he : env.embedResult with
      | none =>
        simp [searchStep, hy, ha, he] at h
        tauto
      | some v =>
        by_cases hv : v.isEmpty
        · simp [searchStep, hy, ha, he, hv] at h
          tauto
        · simp [searchStep, hy, ha, he, hv] at h
          rcases h with rfl | rfl | rfl | rfl
          · exact Or.inl rfl
          · exact Or.inr (Or.inl rfl)
          · exact Or.inr (Or.inr (Or.inl rfl))
          · exact Or.inr (Or.inr (Or.inr ⟨v, rfl⟩))
    · simp [searchStep, hy, ha] at h
      tauto
  · simp [searchStep, hy] at h
    tauto

theorem searchStep_countP_zero (env : Env) (t : Nat) (p : Event → Bool)
    (hpe : p (Event.promptSearch env.searchAnswer) = false)
    (hai : p Event.azureInit = false)
    (hem : p (Event.embedCall QUERY_TEXT) = false)
    (hvs : ∀ v st, p (Event.vectorSearch INDEX_NAME VECTOR_FIELD_PATH v 150 5 st) = false) :
    ((searchStep env t).countP p) = 0 := by
  rw [List.countP_eq_zero]
  intro e he
  rcases searchStep_mem env t e he with rfl | rfl | rfl | ⟨v, rfl⟩ <;>
    simp [hpe, hai, hem, hvs]

theorem searchStep_prompt_mem (env : Env) (t : Nat) :
    Event.promptSearch env.searchAnswer ∈ searchStep env t := by
  by_cases hy : answerIsYes env.searchAnswer
  · by_cases ha : env.azureInitOk
    · cases he : env.embedResult with
      | none => simp [searchStep, hy, ha, he]
      | some v =>
        by_cases hv : v.isEmpty
        · simp [searchStep, hy, ha, he, hv]
        · simp [searchStep, hy, ha, he, hv]
    · simp [searchStep, hy, ha]
  · simp [searchStep, hy]

theorem searchStep_azure_iff (env : Env) (t : Nat) :
    Event.azureInit ∈ searchStep env t ↔ answerIsYes env.searchAnswer = true := by
  by_cases hy : answerIsYes env.searchAnswer
  · by_cases ha : env.azureInitOk
    · cases he : env.embedResult with
      | none => simp [searchStep, hy, ha, he]
      | some v =>
        by_cases hv : v.isEmpty
        · simp [searchStep, hy, ha, he, hv]
        · simp [searchStep, hy, ha, he, hv]
    · simp [searchStep, hy, ha]
  · simp [searchStep, hy]

-- Helper lemmas about the listing and drop step.

theorem displayDrop_mem (env : Env) (e : Event) (h : e ∈ displayDropSteps env) :
    e = Event.displayListing ∨ e = Event.promptDrop env.dropAnswer ∨
      e = Event.dropIndex := by
  by_cases hd : env.displayOk
  · by_cases hy : answerIsYes env.dropAnswer
    · simp [displayDropSteps, hd, hy] at h
      tauto
    · simp [displayDropSteps, hd, hy] at h
      tauto
  · simp [displayDropSteps, hd] at h
    tauto

theorem displayDrop_countP_zero (env : Env) (p : Event → Bool)
    (hdl : p Event.displayListing = false)
    (hpd : p (Event.promptDrop env.dropAnswer) = false)
    (hdr : p Event.dropIndex = false) :
    ((displayDropSteps env).countP p) = 0 := by
  rw [List.countP_eq_zero]
  intro e he
  rcases displayDrop_mem env e he with rfl | rfl | rfl <;> simp [hdl, hpd, hdr]

theorem displayDrop_drop_iff (env : Env) (hd : env.displayOk = true) :
    Event.dropIndex ∈ displayDropSteps env ↔ answerIsYes env.dropAnswer = true := by
  by_cases hy : answerIsYes env.dropAnswer
  · simp [displayDropSteps, hd, hy]
  · simp [displayDropSteps, hd, hy]

-- Helper lemmas about the whole run.

/-- The connection phase of demo.py lines 52-59 succeeds: the string is
non-empty without the placeholder, the client constructor returns, and
the ping answers. -/
def connReady (env : Env) : Prop :=
  env.connStr.data.isEmpty = false ∧ containsPlaceholder env.connStr = false ∧
    env.ctorOk = true ∧ env.pingOk = true

theorem mainRun_eq_of_proceed (env : Env) (hc : connReady env)
    (hidx : (indexStep env).2.1 = StepOutcome.proceed) :
    mainRun env = Event.connect ::
      ((indexStep env).1 ++ searchStep env (indexStep env).2.2 ++
        displayDropSteps env ++ [Event.closeConn]) := by
  obtain ⟨h1, h2, h3, h4⟩ := hc
  simp [mainRun, h1, h2, h3, h4, hidx]

theorem mainRun_eq_of_abort (env : Env) (hc : connReady env)
    (hidx : (indexStep env).2.1 = StepOutcome.abort) :
    mainRun env = Event.connect :: ((indexStep env).1 ++ [Event.closeConn]) := by
  obtain ⟨h1, h2, h3, h4⟩ := hc
  simp [mainRun, h1, h2, h3, h4, hidx]

theorem mainRun_mem (env : Env) (e : Event) (h : e ∈ mainRun env) :
    e = Event.connect ∨ e = Event.closeConn ∨ e ∈ (indexStep env).1 ∨
      e ∈ searchStep env (indexStep env).2.2 ∨ e ∈ displayDropSteps env := by
  unfold mainRun at h
  by_cases h1 : (env.connStr.data.isEmpty || containsPlaceholder env.connStr) = true
  · rw [if_pos h1] at h
    simp at h
  · rw [if_neg h1] at h
    by_cases h2 : (!env.ctorOk) = true
    · rw [if_pos h2] at h
      simp at h
    · rw [if_neg h2] at h
      by_cases h3 : (!env.pingOk) = true
      · rw [if_pos h3] at h
        simp at h
        tauto
      · rw [if_neg h3] at h
        cases ho : (indexStep env).2.1 <;> simp only [ho] at h
        · simp only [List.mem_cons, List.mem_append, List.mem_singleton] at h
          tauto
        · simp only [List.mem_cons, List.mem_append, List.mem_singleton] at h
          tauto
        · simp only [List.mem_cons] at h
          tauto

theorem mainRun_eq_of_divergent (env : Env) (hc : connReady env)
    (hidx : (indexStep env).2.1 = StepOutcome.divergent) :
    mainRun env = Event.connect :: (indexStep env).1 := by
  obtain ⟨h1, h2, h3, h4⟩ := hc
  simp [mainRun, h1, h2, h3, h4, hidx]

-- Bridge: the plain model is the no-failure fragment of the refined one.

theorem pollLoopF_no_fail (stat : Nat → Option String) :
    ∀ fuel t,
      (pollLoopF stat (fun _ => none) fuel t).1 = (pollLoop stat fuel t).1 ∧
      pollEndOutcome (pollLoopF stat (fun _ => none) fuel t).2.1 =
        (pollLoop stat fuel t).2.1 ∧
      (pollLoopF stat (fun _ => none) fuel t).2.2 = (pollLoop stat fuel t).2.2 := by
  intro fuel
  induction fuel with
  | zero =>
    intro t
    exact ⟨rfl, rfl, rfl⟩
  | succ n ih =>
    intro t
    rcases hs : stat t with _ | s
    · simp only [pollLoopF, pollLoop, hs]
      exact ⟨by rw [(ih (t + 1)).1], (ih (t + 1)).2.1, (ih (t + 1)).2.2⟩
    · by_cases hR : s = "READY"
      · subst hR
        simp [pollLoopF, pollLoop, hs, pollEndOutcome]
      · by_cases hF : s = "FAILED"
        · subst hF
          simp [pollLoopF, pollLoop, hs, pollEndOutcome]
        · simp only [pollLoopF, pollLoop, hs]
          rw [if_neg hR, if_neg hF, if_neg hR, if_neg hF]
          exact ⟨by rw [(ih (t + 1)).1], (ih (t + 1)).2.1, (ih (t + 1)).2.2⟩

theorem indexStepF_no_fail (env : Env) :
    indexStepF { toEnv := env, listFailAt := fun _ => none } = indexStep env := by
  have hb := pollLoopF_no_fail env.statusAt env.pollFuel 1
  by_cases hp : (env.statusAt 0).isSome
  · simp [indexStepF, indexStep, hp]
  · cases hc : env.createOutcome
    · simp [indexStepF, indexStep, hp, hc, hb.1, hb.2.1, hb.2.2]
    · simp [indexStepF, indexStep, hp, hc]
    · simp [indexStepF, indexStep, hp, hc]

theorem mainRunF_no_fail (env : Env) :
    mainRunF { toEnv := env, listFailAt := fun _ => none } = mainRun env := by
  have hb := indexStepF_no_fail env
  unfold mainRunF mainRun
  rw [hb]

-- Shape of the refined run by index-step outcome.

theorem mainRunF_eq_of_proceed (env : EnvF) (hc : connReady env.toEnv)
    (hidx : (indexStepF env).2.1 = StepOutcome.proceed) :
    mainRunF env = Event.connect ::
      ((indexStepF env).1 ++ searchStep env.toEnv (indexStepF env).2.2 ++
        displayDropSteps env.toEnv ++ [Event.closeConn]) := by
  obtain ⟨h1, h2, h3, h4⟩ := hc
  simp [mainRunF, h1, h2, h3, h4, hidx]

theorem mainRunF_eq_of_abort (env : EnvF) (hc : connReady env.toEnv)
    (hidx : (indexStepF env).2.1 = StepOutcome.abort) :
    mainRunF env = Event.connect :: ((indexStepF env).1 ++ [Event.closeConn]) := by
  obtain ⟨h1, h2, h3, h4⟩ := hc
  simp [mainRunF, h1, h2, h3, h4, hidx]

-- Claim theorems.

/-- C9: when the connection string still carries the placeholder marker,
the run is fatal before any network call: the trace of mainRun is empty,
so no connection is established and no index, search, listing or drop
action is ever attempted. -/
theorem C9_placeholder_fatal (env : Env)
    (h : containsPlaceholder env.connStr = true) :
    mainRun env = [] := by
  simp [mainRun, h]

def envC9 : Env :=
  { connStr := "db://<username>@host"
    ctorOk := true
    pingOk := true
    statusAt := fun _ => some "READY"
    createOutcome := CreateOutcome.ok
    pollFuel := 1
    searchAnswer := "yes"
    azureInitOk := true
    embedResult := some [1]
    displayOk := true
    dropAnswer := "yes" }

/-- C9 witness: a concrete connection string holding the placeholder
yields the empty trace even though every later step was set to go. -/
theorem C9_witness : mainRun envC9 = [] :=
  C9_placeholder_fatal envC9 (by decide)

def envC1x : Env :=
  { connStr := "mongodb://localhost:27017"
    ctorOk := true
    pingOk := true
    statusAt := fun _ => some "BUILDING"
    createOutcome := CreateOutcome.ok
    pollFuel := 0
    searchAnswer := "yes"
    azureInitOk := true
    embedResult := some [1]
    displayOk := true
    dropAnswer := "no" }

/-- C1 counterexample: with the index already existing in status BUILDING
at the first observation, the run still issues the vectorSearch
aggregation, and the status of the index at that moment is BUILDING, not
READY: the claimed invariant fails on the code. -/
theorem C1_counterexample :
    Event.vectorSearch INDEX_NAME VECTOR_FIELD_PATH [1] 150 5 (some "BUILDING")
        ∈ mainRun envC1x ∧
      (some "BUILDING" : Option String) ≠ some "READY" := by
  constructor
  · decide
  · decide

/-- C1 (amended): when the index is absent at first observation and the
create issued by the program succeeds, any similarity search of the run
is preceded by a READY status observation: the trace splits into a
search-free part containing a READY observation and a remainder.  (When
the index already exists at first observation the program skips both the
create and the poll loop and may search in a non-READY state, as the
counterexample shows.) -/
theorem C1_amended (env : Env)
    (h0 : env.statusAt 0 = none)
    (hc : env.createOutcome = CreateOutcome.ok)
    (hs : (mainRun env).countP isSearchEv ≠ 0) :
    ∃ l1 l2, mainRun env = l1 ++ l2 ∧
      Event.observe (some "READY") ∈ l1 ∧ l1.countP isSearchEv = 0 := by
  by_cases hne : env.connStr.data.isEmpty = true
  · simp [mainRun, hne] at hs
  by_cases hph : containsPlaceholder env.connStr = true
  · simp [mainRun, hph] at hs
  by_cases hct : env.ctorOk = false
  · simp [mainRun, hct] at hs
  by_cases hpg : env.pingOk = false
  · simp [mainRun, hne, hph, hct, hpg, isSearchEv] at hs
  have hcr : connReady env :=
    ⟨by simpa using hne, by simpa using hph, by simpa using hct, by simpa using hpg⟩
  have hix : indexStep env =
      (Event.checkListing :: Event.createIndex :: (pollLoop env.statusAt env.pollFuel 1).1,
        (pollLoop env.statusAt env.pollFuel 1).2.1,
        (pollLoop env.statusAt env.pollFuel 1).2.2) := by
    simp [indexStep, h0, hc]
  have hzero : ((indexStep env).1.countP isSearchEv) = 0 :=
    indexStep_countP_zero env isSearchEv rfl rfl (fun s => rfl) rfl
  cases hpo : (pollLoop env.statusAt env.pollFuel 1).2.1
  · have hidx : (indexStep env).2.1 = StepOutcome.proceed := by
      rw [hix]
      exact hpo
    refine ⟨Event.connect :: (indexStep env).1,
      searchStep env (indexStep env).2.2 ++ displayDropSteps env ++ [Event.closeConn],
      ?_, ?_, ?_⟩
    · rw [mainRun_eq_of_proceed env hcr hidx]
      simp [List.append_assoc]
    · apply List.mem_cons_of_mem
      rw [hix]
      exact List.mem_cons_of_mem _
        (List.mem_cons_of_mem _ (pollLoop_proceed_ready env.statusAt env.pollFuel 1 hpo))
    · simp [List.countP_cons, isSearchEv, hzero]
  · have hidx : (indexStep env).2.1 = StepOutcome.abort := by
      rw [hix]
      exact hpo
    rw [mainRun_eq_of_abort env hcr hidx] at hs
    simp [List.countP_cons, List.countP_append, isSearchEv, hzero] at hs
  · have hidx : (indexStep env).2.1 = StepOutcome.divergent := by
      rw [hix]
      exact hpo
    rw [mainRun_eq_of_divergent env hcr hidx] at hs
    simp [List.countP_cons, isSearchEv, hzero] at hs

def envC1w : Env :=
  { connStr := "mongodb://localhost:27017"
    ctorOk := true
    pingOk := true
    statusAt := fun t => if t = 0 then none else some "READY"
    createOutcome := CreateOutcome.ok
    pollFuel := 1
    searchAnswer := "yes"
    azureInitOk := true
    embedResult := some [1]
    displayOk := true
    dropAnswer := "no" }

/-- C1 witness: a concrete run that creates the index, polls to READY and
then searches satisfies the amended statement. -/
theorem C1_witness :
    ∃ l1 l2, mainRun envC1w = l1 ++ l2 ∧
      Event.observe (some "READY") ∈ l1 ∧ l1.countP isSearchEv = 0 :=
  C1_amended envC1w (by decide) (by decide) (by decide)

def envC2x : EnvF :=
  { connStr := "mongodb://localhost:27017"
    ctorOk := true
    pingOk := true
    statusAt := fun _ => none
    createOutcome := CreateOutcome.alreadyExists
    pollFuel := 7
    searchAnswer := "no"
    azureInitOk := true
    embedResult := some [1]
    displayOk := true
    dropAnswer := "no"
    listFailAt := fun _ => none }

/-- C2 counterexample: in a run where the create fails with the
already-exists race, the script swallows the error and continues, but it
performs zero poll observations afterwards, contradicting the claim that
ensureIndex resumes polling until a terminal status. -/
theorem C2_counterexample :
    mainRunF envC2x = [Event.connect, Event.checkListing, Event.createIndex,
        Event.promptSearch "no", Event.displayListing, Event.promptDrop "no",
        Event.closeConn] ∧
      (mainRunF envC2x).countP isObserve = 0 := by
  constructor
  · decide
  · decide

/-- C2 (amended): every OperationFailure of the index step (from the
create of line 89, the existence check of line 85, or a poll listing of
line 93) whose message contains already exists is treated as success and
never propagated: the run reaches the search prompt, but no polling at
all follows the failure.  Any other OperationFailure of the index step
makes main return, with only the cleanup close following. -/
theorem C2_amended (env : EnvF) (hcr : connReady env.toEnv) :
    (env.listFailAt 0 = none → env.statusAt 0 = none →
      env.createOutcome = CreateOutcome.alreadyExists →
      (mainRunF env).countP isObserve = 0 ∧
        Event.promptSearch env.searchAnswer ∈ mainRunF env) ∧
    (env.listFailAt 0 = none → env.statusAt 0 = none →
      env.createOutcome = CreateOutcome.otherFailure →
      mainRunF env = [Event.connect, Event.checkListing, Event.createIndex,
        Event.closeConn]) ∧
    (env.listFailAt 0 = some OpFailure.other →
      mainRunF env = [Event.connect, Event.listRaise OpFailure.other,
        Event.closeConn]) ∧
    (env.listFailAt 0 = some OpFailure.alreadyExists →
      (mainRunF env).countP isObserve = 0 ∧
        Event.promptSearch env.searchAnswer ∈ mainRunF env) ∧
    (env.listFailAt 0 = none → env.statusAt 0 = none →
      env.createOutcome = CreateOutcome.ok →
      ∀ f, (pollLoopF env.statusAt env.listFailAt env.pollFuel 1).2.1 =
          PollEnd.raised f →
        (f = OpFailure.other →
          mainRunF env = Event.connect ::
            ((indexStepF env).1 ++ [Event.closeConn])) ∧
        (f = OpFailure.alreadyExists →
          Event.promptSearch env.searchAnswer ∈ mainRunF env)) := by
  refine ⟨?_, ?_, ?_, ?_, ?_⟩
  · intro hlf h0 hco
    have hix : indexStepF env =
        ([Event.checkListing, Event.createIndex], StepOutcome.proceed, 1) := by
      simp [indexStepF, hlf, h0, hco]
    have hidx : (indexStepF env).2.1 = StepOutcome.proceed := by rw [hix]
    constructor
    · rw [mainRunF_eq_of_proceed env hcr hidx, hix]
      simp [List.countP_cons, List.countP_append, isObserve,
        searchStep_countP_zero env.toEnv 1 isObserve rfl rfl rfl (fun v st => rfl),
        displayDrop_countP_zero env.toEnv isObserve rfl rfl rfl]
    · rw [mainRunF_eq_of_proceed env hcr hidx]
      have hpm := searchStep_prompt_mem env.toEnv (indexStepF env).2.2
      simp only [List.mem_cons, List.mem_append]
      tauto
  · intro hlf h0 hco
    have hix : indexStepF env =
        ([Event.checkListing, Event.createIndex], StepOutcome.abort, 1) := by
      simp [indexStepF, hlf, h0, hco]
    have hidx : (indexStepF env).2.1 = StepOutcome.abort := by rw [hix]
    rw [mainRunF_eq_of_abort env hcr hidx, hix]
    simp
  · intro hlf
    have hix : indexStepF env =
        ([Event.listRaise OpFailure.other], StepOutcome.abort, 1) := by
      simp [indexStepF, hlf, handleFailure]
    have hidx : (indexStepF env).2.1 = StepOutcome.abort := by rw [hix]
    rw [mainRunF_eq_of_abort env hcr hidx, hix]
    simp
  · intro hlf
    have hix : indexStepF env =
        ([Event.listRaise OpFailure.alreadyExists], StepOutcome.proceed, 1) := by
      simp [indexStepF, hlf, handleFailure]
    have hidx : (indexStepF env).2.1 = StepOutcome.proceed := by rw [hix]
    constructor
    · rw [mainRunF_eq_of_proceed env hcr hidx, hix]
      simp [List.countP_cons, List.countP_append, isObserve,
        searchStep_countP_zero env.toEnv 1 isObserve rfl rfl rfl (fun v st => rfl),
        displayDrop_countP_zero env.toEnv isObserve rfl rfl rfl]
    · rw [mainRunF_eq_of_proceed env hcr hidx]
      have hpm := searchStep_prompt_mem env.toEnv (indexStepF env).2.2
      simp only [List.mem_cons, List.mem_append]
      tauto
  · intro hlf h0 hco f hpo
    have hix : indexStepF env =
        (Event.checkListing :: Event.createIndex ::
            (pollLoopF env.statusAt env.listFailAt env.pollFuel 1).1,
          pollEndOutcome
            (pollLoopF env.statusAt env.listFailAt env.pollFuel 1).2.1,
          (pollLoopF env.statusAt env.listFailAt env.pollFuel 1).2.2) := by
      simp [indexStepF, hlf, h0, hco]
    constructor
    · intro hf
      subst hf
      have hidx : (indexStepF env).2.1 = StepOutcome.abort := by
        rw [hix]
        simp [hpo, pollEndOutcome, handleFailure]
      exact mainRunF_eq_of_abort env hcr hidx
    · intro hf
      subst hf
      have hidx : (indexStepF env).2.1 = StepOutcome.proceed := by
        rw [hix]
        simp [hpo, pollEndOutcome, handleFailure]
      rw [mainRunF_eq_of_proceed env hcr hidx]
      have hpm := searchStep_prompt_mem env.toEnv (indexStepF env).2.2
      simp only [List.mem_cons, List.mem_append]
      tauto

def envC2w : EnvF :=
  { connStr := "mongodb://localhost:27017"
    ctorOk := true
    pingOk := true
    statusAt := fun _ => none
    createOutcome := CreateOutcome.alreadyExists
    pollFuel := 3
    searchAnswer := "maybe"
    azureInitOk := true
    embedResult := some [1]
    displayOk := true
    dropAnswer := "no"
    listFailAt := fun _ => none }

def envC2f : EnvF :=
  { connStr := "mongodb://localhost:27017"
    ctorOk := true
    pingOk := true
    statusAt := fun _ => none
    createOutcome := CreateOutcome.ok
    pollFuel := 3
    searchAnswer := "yes"
    azureInitOk := true
    embedResult := some [1]
    displayOk := true
    dropAnswer := "no"
    listFailAt := fun _ => some OpFailure.other }

/-- C2 witness: a concrete already-exists create race run has no poll
observation and still reaches the search prompt; and a concrete run whose
existence check raises a non-tolerated OperationFailure returns with only
the cleanup close. -/
theorem C2_witness :
    ((mainRunF envC2w).countP isObserve = 0 ∧
      Event.promptSearch envC2w.searchAnswer ∈ mainRunF envC2w) ∧
    mainRunF envC2f = [Event.connect, Event.listRaise OpFailure.other,
      Event.closeConn] :=
  ⟨(C2_amended envC2w ⟨by decide, by decide, by decide, by decide⟩).1 rfl rfl rfl,
    (C2_amended envC2f ⟨by decide, by decide, by decide, by decide⟩).2.2.1 rfl⟩

def envC3x : Env :=
  { connStr := "mongodb://localhost:27017"
    ctorOk := true
    pingOk := true
    statusAt := fun t => if t = 0 then none else some "FAILED"
    createOutcome := CreateOutcome.ok
    pollFuel := 3
    searchAnswer := "yes"
    azureInitOk := true
    embedResult := some [1]
    displayOk := true
    dropAnswer := "yes" }

/-- C3 counterexample: a run whose poll loop observes FAILED terminates
the whole run, not only the search step: the index-listing and the drop
prompt are absent from the trace even though the operator would have
answered yes to both prompts. -/
theorem C3_counterexample :
    Event.observe (some "FAILED") ∈ mainRun envC3x ∧
      Event.displayListing ∉ mainRun envC3x ∧
      Event.promptDrop envC3x.dropAnswer ∉ mainRun envC3x := by
  refine ⟨by decide, by decide, by decide⟩

/-- C3 (amended): when the poll loop reaches the terminal status FAILED,
the script returns from main: the search, index-listing and drop steps
are all skipped, and only the connection cleanup follows the failed
observation. -/
theorem C3_amended (env : Env) (hcr : connReady env)
    (h0 : env.statusAt 0 = none)
    (hc : env.createOutcome = CreateOutcome.ok)
    (hf : (pollLoop env.statusAt env.pollFuel 1).2.1 = StepOutcome.abort) :
    mainRun env = [Event.connect, Event.checkListing, Event.createIndex] ++
        (pollLoop env.statusAt env.pollFuel 1).1 ++ [Event.closeConn] ∧
      Event.displayListing ∉ mainRun env ∧
      (mainRun env).countP isSearchEv = 0 := by
  have hix : indexStep env =
      (Event.checkListing :: Event.createIndex :: (pollLoop env.statusAt env.pollFuel 1).1,
        (pollLoop env.statusAt env.pollFuel 1).2.1,
        (pollLoop env.statusAt env.pollFuel 1).2.2) := by
    simp [indexStep, h0, hc]
  have hidx : (indexStep env).2.1 = StepOutcome.abort := by
    rw [hix]
    exact hf
  have hmain := mainRun_eq_of_abort env hcr hidx
  refine ⟨?_, ?_, ?_⟩
  · rw [hmain, hix]
    simp
  · rw [hmain]
    intro hmem
    simp only [List.mem_cons, List.mem_append, List.mem_singleton] at hmem
    rcases hmem with h | h | h
    · simp at h
    · rcases indexStep_mem env _ h with h2 | h2 | ⟨s, h2⟩ | h2 <;> simp at h2
    · simp at h
  · rw [hmain]
    simp [List.countP_cons, List.countP_append, isSearchEv,
      indexStep_countP_zero env isSearchEv rfl rfl (fun s => rfl) rfl]

def envC3w : Env :=
  { connStr := "mongodb://localhost:27017"
    ctorOk := true
    pingOk := true
    statusAt := fun t => if t = 0 then none else some "FAILED"
    createOutcome := CreateOutcome.ok
    pollFuel := 2
    searchAnswer := "yes"
    azureInitOk := true
    embedResult := some [1]
    displayOk := true
    dropAnswer := "yes" }

/-- C3 witness: a concrete FAILED run satisfies the amended statement. -/
theorem C3_witness :
    mainRun envC3w = [Event.connect, Event.checkListing, Event.createIndex] ++
        (pollLoop envC3w.statusAt envC3w.pollFuel 1).1 ++ [Event.closeConn] ∧
      Event.displayListing ∉ mainRun envC3w ∧
      (mainRun envC3w).countP isSearchEv = 0 :=
  C3_amended envC3w ⟨by decide, by decide, by decide, by decide⟩ (by decide)
    (by decide) (by decide)

-- Structure of the poll-loop trace, for the terminal-detection claim.

theorem pollLoop_shape (stat : Nat → Option String) :
    ∀ fuel t, pollShape (pollLoop stat fuel t).1 = true := by
  intro fuel
  induction fuel with
  | zero =>
    intro t
    simp [pollLoop, pollShape]
  | succ n ih =>
    intro t
    rcases hs : stat t with _ | s
    · simp only [pollLoop, hs]
      simp [pollShape, ih (t + 1)]
    · simp only [pollLoop, hs]
      by_cases hR : s = "READY"
      · rw [if_pos hR]
        simp [pollShape]
      · rw [if_neg hR]
        by_cases hF : s = "FAILED"
        · rw [if_pos hF]
          simp [pollShape]
        · rw [if_neg hF]
          simp [pollShape, ih (t + 1)]

-- Projection equations for one unrolling of the poll loop.

theorem pollLoop_fst_none (stat : Nat → Option String) (n t : Nat)
    (hs : stat t = none) :
    (pollLoop stat (n + 1) t).1 =
      Event.observe none :: Event.sleep 10 :: (pollLoop stat n (t + 1)).1 := by
  simp [pollLoop, hs]

theorem pollLoop_out_none (stat : Nat → Option String) (n t : Nat)
    (hs : stat t = none) :
    (pollLoop stat (n + 1) t).2.1 = (pollLoop stat n (t + 1)).2.1 := by
  simp [pollLoop, hs]

theorem pollLoop_fst_ready (stat : Nat → Option String) (n t : Nat) (x : String)
    (hs : stat t = some x) (hR : x = "READY") :
    (pollLoop stat (n + 1) t).1 = [Event.observe (some x)] := by
  simp [pollLoop, hs, hR]

theorem pollLoop_out_ready (stat : Nat → Option String) (n t : Nat) (x : String)
    (hs : stat t = some x) (hR : x = "READY") :
    (pollLoop stat (n + 1) t).2.1 = StepOutcome.proceed := by
  simp [pollLoop, hs, hR]

theorem pollLoop_fst_failed (stat : Nat → Option String) (n t : Nat) (x : String)
    (hs : stat t = some x) (hF : x = "FAILED") :
    (pollLoop stat (n + 1) t).1 = [Event.observe (some x)] := by
  simp [pollLoop, hs, hF]

theorem pollLoop_out_failed (stat : Nat → Option String) (n t : Nat) (x : String)
    (hs : stat t = some x) (hF : x = "FAILED") :
    (pollLoop stat (n + 1) t).2.1 = StepOutcome.abort := by
  simp [pollLoop, hs, hF]

theorem pollLoop_fst_other (stat : Nat → Option String) (n t : Nat) (x : String)
    (hs : stat t = some x) (hR : x ≠ "READY") (hF : x ≠ "FAILED") :
    (pollLoop stat (n + 1) t).1 =
      Event.observe (some x) :: Event.sleep 10 :: (pollLoop stat n (t + 1)).1 := by
  simp [pollLoop, hs, hR, hF]

theorem pollLoop_out_other (stat : Nat → Option String) (n t : Nat) (x : String)
    (hs : stat t = some x) (hR : x ≠ "READY") (hF : x ≠ "FAILED") :
    (pollLoop stat (n + 1) t).2.1 = (pollLoop stat n (t + 1)).2.1 := by
  simp [pollLoop, hs, hR, hF]

theorem pollLoop_term_is_last (stat : Nat → Option String) :
    ∀ fuel t s, Event.observe s ∈ (pollLoop stat fuel t).1 →
      isTerminalStatus s = true →
      (pollLoop stat fuel t).1.getLast? = some (Event.observe s) := by
  intro fuel
  induction fuel with
  | zero =>
    intro t s h
    simp [pollLoop] at h
  | succ n ih =>
    intro t s h hterm
    rcases hs : stat t with _ | x
    · rw [pollLoop_fst_none stat n t hs] at h ⊢
      simp only [List.mem_cons] at h
      rcases h with h | h | h
      · rw [Event.observe.injEq] at h
        subst h
        simp [isTerminalStatus] at hterm
      · exact absurd h (by simp)
      · have ihr := ih (t + 1) s h hterm
        rcases hrec : (pollLoop stat n (t + 1)).1 with _ | ⟨y, ys⟩
        · rw [hrec] at ihr
          simp at ihr
        · rw [hrec] at ihr
          rw [List.getLast?_cons_cons, List.getLast?_cons_cons]
          exact ihr
    · by_cases hR : x = "READY"
      · rw [pollLoop_fst_ready stat n t x hs hR] at h ⊢
        simp only [List.mem_singleton] at h
        rw [Event.observe.injEq] at h
        subst h
        simp
      · by_cases hF : x = "FAILED"
        · rw [pollLoop_fst_failed stat n t x hs hF] at h ⊢
          simp only [List.mem_singleton] at h
          rw [Event.observe.injEq] at h
          subst h
          simp
        · rw [pollLoop_fst_other stat n t x hs hR hF] at h ⊢
          simp only [List.mem_cons] at h
          rcases h with h | h | h
          · rw [Event.observe.injEq] at h
            subst h
            simp [isTerminalStatus, hR, hF] at hterm
          · exact absurd h (by simp)
          · have ihr := ih (t + 1) s h hterm
            rcases hrec : (pollLoop stat n (t + 1)).1 with _ | ⟨y, ys⟩
            · rw [hrec] at ihr
              simp at ihr
            · rw [hrec] at ihr
              rw [List.getLast?_cons_cons, List.getLast?_cons_cons]
              exact ihr

theorem pollLoop_last_is_term (stat : Nat → Option String) :
    ∀ fuel t s, (pollLoop stat fuel t).1.getLast? = some (Event.observe s) →
      isTerminalStatus s = true := by
  intro fuel
  induction fuel with
  | zero =>
    intro t s h
    simp [pollLoop] at h
  | succ n ih =>
    intro t s h
    rcases hs : stat t with _ | x
    · rw [pollLoop_fst_none stat n t hs] at h
      rcases hrec : (pollLoop stat n (t + 1)).1 with _ | ⟨y, ys⟩
      · rw [hrec] at h
        simp at h
      · rw [hrec, List.getLast?_cons_cons, List.getLast?_cons_cons, ← hrec] at h
        exact ih (t + 1) s h
    · by_cases hR : x = "READY"
      · rw [pollLoop_fst_ready stat n t x hs hR] at h
        simp only [List.getLast?_singleton, Option.some.injEq] at h
        rw [Event.observe.injEq] at h
        subst h
        simp [isTerminalStatus, hR]
      · by_cases hF : x = "FAILED"
        · rw [pollLoop_fst_failed stat n t x hs hF] at h
          simp only [List.getLast?_singleton, Option.some.injEq] at h
          rw [Event.observe.injEq] at h
          subst h
          simp [isTerminalStatus, hF]
        · rw [pollLoop_fst_other stat n t x hs hR hF] at h
          rcases hrec : (pollLoop stat n (t + 1)).1 with _ | ⟨y, ys⟩
          · rw [hrec] at h
            simp at h
          · rw [hrec, List.getLast?_cons_cons, List.getLast?_cons_cons, ← hrec] at h
            exact ih (t + 1) s h

theorem pollLoop_proceed_getLast (stat : Nat → Option String) :
    ∀ fuel t, (pollLoop stat fuel t).2.1 = StepOutcome.proceed →
      (pollLoop stat fuel t).1.getLast? = some (Event.observe (some "READY")) := by
  intro fuel
  induction fuel with
  | zero =>
    intro t h
    simp [pollLoop] at h
  | succ n ih =>
    intro t h
    rcases hs : stat t with _ | x
    · rw [pollLoop_out_none stat n t hs] at h
      rw [pollLoop_fst_none stat n t hs]
      have ihr := ih (t + 1) h
      rcases hrec : (pollLoop stat n (t + 1)).1 with _ | ⟨y, ys⟩
      · rw [hrec] at ihr
        simp at ihr
      · rw [hrec] at ihr
        rw [List.getLast?_cons_cons, List.getLast?_cons_cons]
        exact ihr
    · by_cases hR : x = "READY"
      · rw [pollLoop_fst_ready stat n t x hs hR, hR]
        simp
      · by_cases hF : x = "FAILED"
        · rw [pollLoop_out_failed stat n t x hs hF] at h
          simp at h
        · rw [pollLoop_out_other stat n t x hs hR hF] at h
          rw [pollLoop_fst_other stat n t x hs hR hF]
          have ihr := ih (t + 1) h
          rcases hrec : (pollLoop stat n (t + 1)).1 with _ | ⟨y, ys⟩
          · rw [hrec] at ihr
            simp at ihr
          · rw [hrec] at ihr
            rw [List.getLast?_cons_cons, List.getLast?_cons_cons]
            exact ihr

theorem pollLoop_abort_getLast (stat : Nat → Option String) :
    ∀ fuel t, (pollLoop stat fuel t).2.1 = StepOutcome.abort →
      (pollLoop stat fuel t).1.getLast? = some (Event.observe (some "FAILED")) := by
  intro fuel
  induction fuel with
  | zero =>
    intro t h
    simp [pollLoop] at h
  | succ n ih =>
    intro t h
    rcases hs : stat t with _ | x
    · rw [pollLoop_out_none stat n t hs] at h
      rw [pollLoop_fst_none stat n t hs]
      have ihr := ih (t + 1) h
      rcases hrec : (pollLoop stat n (t + 1)).1 with _ | ⟨y, ys⟩
      · rw [hrec] at ihr
        simp at ihr
      · rw [hrec] at ihr
        rw [List.getLast?_cons_cons, List.getLast?_cons_cons]
        exact ihr
    · by_cases hR : x = "READY"
      · rw [pollLoop_out_ready stat n t x hs hR] at h
        simp at h
      · by_cases hF : x = "FAILED"
        · rw [pollLoop_fst_failed stat n t x hs hF, hF]
          simp
        · rw [pollLoop_out_other stat n t x hs hR hF] at h
          rw [pollLoop_fst_other stat n t x hs hR hF]
          have ihr := ih (t + 1) h
          rcases hrec : (pollLoop stat n (t + 1)).1 with _ | ⟨y, ys⟩
          · rw [hrec] at ihr
            simp at ihr
          · rw [hrec] at ihr
            rw [List.getLast?_cons_cons, List.getLast?_cons_cons]
            exact ihr

theorem pollLoop_divergent_getLast (stat : Nat → Option String) :
    ∀ fuel t, (pollLoop stat fuel t).2.1 = StepOutcome.divergent →
      ∀ s, (pollLoop stat fuel t).1.getLast? ≠ some (Event.observe s) := by
  intro fuel
  induction fuel with
  | zero =>
    intro t _ s
    simp [pollLoop]
  | succ n ih =>
    intro t h s
    rcases hs : stat t with _ | x
    · rw [pollLoop_out_none stat n t hs] at h
      rw [pollLoop_fst_none stat n t hs]
      rcases hrec : (pollLoop stat n (t + 1)).1 with _ | ⟨y, ys⟩
      · simp
      · rw [List.getLast?_cons_cons, List.getLast?_cons_cons, ← hrec]
        exact ih (t + 1) h s
    · by_cases hR : x = "READY"
      · rw [pollLoop_out_ready stat n t x hs hR] at h
        simp at h
      · by_cases hF : x = "FAILED"
        · rw [pollLoop_out_failed stat n t x hs hF] at h
          simp at h
        · rw [pollLoop_out_other stat n t x hs hR hF] at h
          rw [pollLoop_fst_other stat n t x hs hR hF]
          rcases hrec : (pollLoop stat n (t + 1)).1 with _ | ⟨y, ys⟩
          · simp
          · rw [List.getLast?_cons_cons, List.getLast?_cons_cons, ← hrec]
            exact ih (t + 1) h s

theorem pollLoop_divergent_iff (stat : Nat → Option String) :
    ∀ fuel t, ((pollLoop stat fuel t).2.1 = StepOutcome.divergent ↔
      ∀ k, k < fuel → isTerminalStatus (stat (t + k)) = false) := by
  intro fuel
  induction fuel with
  | zero =>
    intro t
    constructor
    · intro _ k hk
      exact absurd hk (Nat.not_lt_zero k)
    · intro _
      rfl
  | succ n ih =>
    intro t
    rcases hs : stat t with _ | x
    · rw [pollLoop_out_none stat n t hs, ih (t + 1)]
      constructor
      · intro h k hk
        cases k with
        | zero =>
          rw [Nat.add_zero, hs]
          simp [isTerminalStatus]
        | succ m =>
          have hm := h m (Nat.lt_of_succ_lt_succ hk)
          have he : t + (m + 1) = t + 1 + m := by omega
          rw [he]
          exact hm
      · intro h k hk
        have hm := h (k + 1) (by omega)
        have he : t + (k + 1) = t + 1 + k := by omega
        rw [he] at hm
        exact hm
    · by_cases hR : x = "READY"
      · rw [pollLoop_out_ready stat n t x hs hR]
        constructor
        · intro h
          exact absurd h (by simp)
        · intro h
          have h0 := h 0 (by omega)
          rw [Nat.add_zero, hs, hR] at h0
          simp [isTerminalStatus] at h0
      · by_cases hF : x = "FAILED"
        · rw [pollLoop_out_failed stat n t x hs hF]
          constructor
          · intro h
            exact absurd h (by simp)
          · intro h
            have h0 := h 0 (by omega)
            rw [Nat.add_zero, hs, hF] at h0
            simp [isTerminalStatus] at h0
        · rw [pollLoop_out_other stat n t x hs hR hF, ih (t + 1)]
          constructor
          · intro h k hk
            cases k with
            | zero =>
              rw [Nat.add_zero, hs]
              simp [isTerminalStatus, hR, hF]
            | succ m =>
              have hm := h m (Nat.lt_of_succ_lt_succ hk)
              have he : t + (m + 1) = t + 1 + m := by omega
              rw [he]
              exact hm
          · intro h k hk
            have hm := h (k + 1) (by omega)
            have he : t + (k + 1) = t + 1 + k := by omega
            rw [he] at hm
            exact hm

/-- C4: once entered, the poll loop stops exactly at the first READY or
FAILED observation.  The trace alternates observations with the fixed
sleep of 10 time units (pollShape); a terminal observation is always the
last event of the loop trace and the last observation of a finished loop
is terminal; the loop finishes with success exactly when its last event
is a READY observation and with abort exactly when it is a FAILED one;
and it is still running after the modelled number of observations exactly
when none of the statuses seen so far was terminal, so it never stops on
a BUILDING or absent observation. -/
theorem C4_poll_terminal (stat : Nat → Option String) (fuel t : Nat) :
    pollShape (pollLoop stat fuel t).1 = true ∧
    (∀ s, Event.observe s ∈ (pollLoop stat fuel t).1 → isTerminalStatus s = true →
      (pollLoop stat fuel t).1.getLast? = some (Event.observe s)) ∧
    (∀ s, (pollLoop stat fuel t).1.getLast? = some (Event.observe s) →
      isTerminalStatus s = true) ∧
    ((pollLoop stat fuel t).2.1 = StepOutcome.proceed ↔
      (pollLoop stat fuel t).1.getLast? = some (Event.observe (some "READY"))) ∧
    ((pollLoop stat fuel t).2.1 = StepOutcome.abort ↔
      (pollLoop stat fuel t).1.getLast? = some (Event.observe (some "FAILED"))) ∧
    ((pollLoop stat fuel t).2.1 = StepOutcome.divergent ↔
      ∀ k, k < fuel → isTerminalStatus (stat (t + k)) = false) := by
  refine ⟨pollLoop_shape stat fuel t, pollLoop_term_is_last stat fuel t,
    pollLoop_last_is_term stat fuel t,
    ⟨pollLoop_proceed_getLast stat fuel t, ?_⟩,
    ⟨pollLoop_abort_getLast stat fuel t, ?_⟩,
    pollLoop_divergent_iff stat fuel t⟩
  · intro h
    cases ho : (pollLoop stat fuel t).2.1
    · rfl
    · have hx := pollLoop_abort_getLast stat fuel t ho
      rw [hx] at h
      simp at h
    · exact absurd h (pollLoop_divergent_getLast stat fuel t ho _)
  · intro h
    cases ho : (pollLoop stat fuel t).2.1
    · have hx := pollLoop_proceed_getLast stat fuel t ho
      rw [hx] at h
      simp at h
    · rfl
    · exact absurd h (pollLoop_divergent_getLast stat fuel t ho _)

def statC4 : Nat → Option String :=
  fun t => if t ≤ 1 then some "BUILDING" else some "READY"

/-- C4 witness: on a concrete status schedule that stays BUILDING for one
observation and then turns READY, the loop outcome is success and, by the
C4 characterization, the last event of its trace is the READY
observation. -/
theorem C4_witness :
    (pollLoop statC4 3 1).1.getLast? = some (Event.observe (some "READY")) :=
  ((C4_poll_terminal statC4 3 1).2.2.2.1).mp (by decide)

/-- C5: index creation is idempotent.  A single ensure-index phase issues
at most one create request, and a phase that observes the index already
present (as the second of two sequenced runs does once the first has
created it) issues none and finishes the index phase without error, so
the two sequenced phases together never issue two creates. -/
theorem C5_idempotent_create (e1 e2 : Env)
    (h : (e2.statusAt 0).isSome = true) :
    (((indexStep e1).1 ++ (indexStep e2).1).countP isCreateEv) ≤ 1 ∧
    ((indexStep e2).1.countP isCreateEv) = 0 ∧
    (indexStep e2).2.1 = StepOutcome.proceed := by
  have hix : indexStep e2 = ([Event.checkListing], StepOutcome.proceed, 1) := by
    simp [indexStep, h]
  refine ⟨?_, ?_, by rw [hix]⟩
  · rw [List.countP_append, hix]
    have h1 := indexStep_create_le_one e1
    simp [isCreateEv]
    omega
  · rw [hix]
    simp [isCreateEv]

def envC5a : Env :=
  { connStr := "mongodb://localhost:27017"
    ctorOk := true
    pingOk := true
    statusAt := fun t => if t = 0 then none else some "READY"
    createOutcome := CreateOutcome.ok
    pollFuel := 1
    searchAnswer := "no"
    azureInitOk := true
    embedResult := some [1]
    displayOk := true
    dropAnswer := "no" }

def envC5b : Env :=
  { envC5a with statusAt := fun _ => some "READY" }

/-- C5 witness: a first run that creates the index followed by a second
run that observes it present issues one create in total and none in the
second run. -/
theorem C5_witness :
    (((indexStep envC5a).1 ++ (indexStep envC5b).1).countP isCreateEv) ≤ 1 ∧
    ((indexStep envC5b).1.countP isCreateEv) = 0 ∧
    (indexStep envC5b).2.1 = StepOutcome.proceed :=
  C5_idempotent_create envC5a envC5b (by decide)

/-- C6: when the run reaches the search step, the operator opts in, the
Azure client is constructed and the embedding call fails (no vector is
returned), the vectorSearch aggregation is never executed and the run
still continues to the index-listing step. -/
theorem C6_embed_failure (env : Env) (hcr : connReady env)
    (hidx : (indexStep env).2.1 = StepOutcome.proceed)
    (hyes : answerIsYes env.searchAnswer = true)
    (hai : env.azureInitOk = true)
    (hemb : env.embedResult = none) :
    Event.embedCall QUERY_TEXT ∈ mainRun env ∧
    (mainRun env).countP isSearchEv = 0 ∧
    Event.displayListing ∈ mainRun env := by
  have hmain := mainRun_eq_of_proceed env hcr hidx
  have hss : searchStep env (indexStep env).2.2 =
      [Event.promptSearch env.searchAnswer, Event.azureInit,
        Event.embedCall QUERY_TEXT] := by
    simp [searchStep, hyes, hai, hemb]
  refine ⟨?_, ?_, ?_⟩
  · rw [hmain, hss]
    simp
  · rw [hmain, hss]
    simp [List.countP_cons, List.countP_append, isSearchEv,
      indexStep_countP_zero env isSearchEv rfl rfl (fun s => rfl) rfl,
      displayDrop_countP_zero env isSearchEv rfl rfl rfl]
  · rw [hmain]
    simp [displayDropSteps]

def envC6w : Env :=
  { connStr := "mongodb://localhost:27017"
    ctorOk := true
    pingOk := true
    statusAt := fun _ => some "READY"
    createOutcome := CreateOutcome.ok
    pollFuel := 1
    searchAnswer := "yes"
    azureInitOk := true
    embedResult := none
    displayOk := true
    dropAnswer := "no" }

/-- C6 witness: a concrete run whose embedding call returns nothing makes
the call, performs no search and still lists the indexes. -/
theorem C6_witness :
    Event.embedCall QUERY_TEXT ∈ mainRun envC6w ∧
    (mainRun envC6w).countP isSearchEv = 0 ∧
    Event.displayListing ∈ mainRun envC6w :=
  C6_embed_failure envC6w ⟨by decide, by decide, by decide, by decide⟩
    (by decide) (by decide) (by decide) (by decide)

/-- C7: both interactive prompts take their affirmative branch exactly
when the operator answer, lowercased, equals yes, and any other answer
takes the negative branch: in a run that reaches the prompts, the Azure
search branch is entered iff the lowercased search answer equals yes, and
the drop is issued iff the lowercased drop answer equals yes. -/
theorem C7_prompts (env : Env) (hcr : connReady env)
    (hidx : (indexStep env).2.1 = StepOutcome.proceed)
    (hdo : env.displayOk = true) :
    (Event.azureInit ∈ mainRun env ↔
      env.searchAnswer.data.map Char.toLower = "yes".data) ∧
    (Event.dropIndex ∈ mainRun env ↔
      env.dropAnswer.data.map Char.toLower = "yes".data) := by
  have hmain := mainRun_eq_of_proceed env hcr hidx
  have haz : Event.azureInit ∈ mainRun env ↔ answerIsYes env.searchAnswer = true := by
    constructor
    · intro h
      rcases mainRun_mem env _ h with h | h | h | h | h
      · simp at h
      · simp at h
      · rcases indexStep_mem env _ h with h2 | h2 | ⟨s, h2⟩ | h2 <;> simp at h2
      · exact (searchStep_azure_iff env _).mp h
      · rcases displayDrop_mem env _ h with h2 | h2 | h2 <;> simp at h2
    · intro h
      rw [hmain]
      have hm := (searchStep_azure_iff env (indexStep env).2.2).mpr h
      simp only [List.mem_cons, List.mem_append]
      tauto
  have hdr : Event.dropIndex ∈ mainRun env ↔ answerIsYes env.dropAnswer = true := by
    constructor
    · intro h
      rcases mainRun_mem env _ h with h | h | h | h | h
      · simp at h
      · simp at h
      · rcases indexStep_mem env _ h with h2 | h2 | ⟨s, h2⟩ | h2 <;> simp at h2
      · rcases searchStep_mem env _ _ h with h2 | h2 | h2 | ⟨v, h2⟩ <;> simp at h2
      · exact (displayDrop_drop_iff env hdo).mp h
    · intro h
      rw [hmain]
      have hm := (displayDrop_drop_iff env hdo).mpr h
      simp only [List.mem_cons, List.mem_append]
      tauto
  constructor
  · rw [haz]
    simp [answerIsYes]
  · rw [hdr]
    simp [answerIsYes]

def envC7w : Env :=
  { connStr := "mongodb://localhost:27017"
    ctorOk := true
    pingOk := true
    statusAt := fun _ => some "READY"
    createOutcome := CreateOutcome.ok
    pollFuel := 1
    searchAnswer := "YeS"
    azureInitOk := true
    embedResult := some [1]
    displayOk := true
    dropAnswer := "nah" }

/-- C7 witness: with mixed-case affirmative search answer and a negative
drop answer, the search branch is entered and the drop is skipped. -/
theorem C7_witness :
    (Event.azureInit ∈ mainRun envC7w ↔
      envC7w.searchAnswer.data.map Char.toLower = "yes".data) ∧
    (Event.dropIndex ∈ mainRun envC7w ↔
      envC7w.dropAnswer.data.map Char.toLower = "yes".data) :=
  C7_prompts envC7w ⟨by decide, by decide, by decide, by decide⟩
    (by decide) (by decide)

/-- C8: for every terminating run outcome (fatal configuration error,
fatal connection failure, non-fatal step failure, full success) the
connection is released exactly once per establishment: the number of
close events equals the number of connect events, and at most one
connection is ever established; in particular no path closes twice and no
path leaks an established connection. -/
theorem C8_close_once (env : Env)
    (hterm : (indexStep env).2.1 ≠ StepOutcome.divergent) :
    (mainRun env).countP isCloseEv = (mainRun env).countP isConnectEv ∧
    (mainRun env).countP isConnectEv ≤ 1 := by
  by_cases h1 : (env.connStr.data.isEmpty || containsPlaceholder env.connStr) = true
  · simp [mainRun, h1]
  by_cases h2 : env.ctorOk = false
  · simp [mainRun, h1, h2]
  by_cases h3 : env.pingOk = false
  · simp [mainRun, h1, h2, h3, isCloseEv, isConnectEv]
  rw [Bool.not_eq_true, Bool.or_eq_false_iff] at h1
  rw [Bool.not_eq_false] at h2 h3
  have hcr : connReady env := ⟨h1.1, h1.2, h2, h3⟩
  cases ho : (indexStep env).2.1
  · rw [mainRun_eq_of_proceed env hcr ho]
    simp [List.countP_cons, List.countP_append,
      indexStep_countP_zero env isCloseEv rfl rfl (fun s => rfl) rfl,
      indexStep_countP_zero env isConnectEv rfl rfl (fun s => rfl) rfl,
      searchStep_countP_zero env (indexStep env).2.2 isCloseEv rfl rfl rfl
        (fun v st => rfl),
      searchStep_countP_zero env (indexStep env).2.2 isConnectEv rfl rfl rfl
        (fun v st => rfl),
      displayDrop_countP_zero env isCloseEv rfl rfl rfl,
      displayDrop_countP_zero env isConnectEv rfl rfl rfl,
      isCloseEv, isConnectEv]
  · rw [mainRun_eq_of_abort env hcr ho]
    simp [List.countP_cons, List.countP_append,
      indexStep_countP_zero env isCloseEv rfl rfl (fun s => rfl) rfl,
      indexStep_countP_zero env isConnectEv rfl rfl (fun s => rfl) rfl,
      isCloseEv, isConnectEv]
  · exact absurd ho hterm

def envC8w : Env :=
  { connStr := "mongodb://localhost:27017"
    ctorOk := true
    pingOk := true
    statusAt := fun _ => some "READY"
    createOutcome := CreateOutcome.ok
    pollFuel := 1
    searchAnswer := "yes"
    azureInitOk := true
    embedResult := some [1]
    displayOk := true
    dropAnswer := "yes" }

/-- C8 witness: a concrete full-success run closes the connection exactly
as often as it opens it, and opens it at most once. -/
theorem C8_witness :
    (mainRun envC8w).countP isCloseEv = (mainRun envC8w).countP isConnectEv ∧
    (mainRun envC8w).countP isConnectEv ≤ 1 :=
  C8_close_once envC8w (by decide)

/-- C10: operator input never influences the query content or the
pipeline parameters: in every run, whatever the environment and the
operator answers, any embedding call carries exactly the fixed query
text, and any vectorSearch aggregation targets INDEX_NAME over
VECTOR_FIELD_PATH with numCandidates 150 and limit 5. -/
theorem C10_fixed_parameters (env : Env) :
    (∀ s, Event.embedCall s ∈ mainRun env → s = QUERY_TEXT) ∧
    (∀ i p v n l st, Event.vectorSearch i p v n l st ∈ mainRun env →
      i = INDEX_NAME ∧ p = VECTOR_FIELD_PATH ∧ n = 150 ∧ l = 5) := by
  constructor
  · intro s h
    rcases mainRun_mem env _ h with h | h | h | h | h
    · simp at h
    · simp at h
    · rcases indexStep_mem env _ h with h2 | h2 | ⟨x, h2⟩ | h2 <;> simp at h2
    · rcases searchStep_mem env _ _ h with h2 | h2 | h2 | ⟨w, h2⟩ <;> simp at h2
      exact h2
    · rcases displayDrop_mem env _ h with h2 | h2 | h2 <;> simp at h2
  · intro i p v n l st h
    rcases mainRun_mem env _ h with h | h | h | h | h
    · simp at h
    · simp at h
    · rcases indexStep_mem env _ h with h2 | h2 | ⟨x, h2⟩ | h2 <;> simp at h2
    · rcases searchStep_mem env _ _ h with h2 | h2 | h2 | ⟨w, h2⟩ <;> simp at h2
      obtain ⟨hi, hp, hv, hn, hl, hst⟩ := h2
      exact ⟨hi, hp, hn, hl⟩
    · rcases displayDrop_mem env _ h with h2 | h2 | h2 <;> simp at h2

def envC10w : Env :=
  { connStr := "mongodb://localhost:27017"
    ctorOk := true
    pingOk := true
    statusAt := fun _ => some "READY"
    createOutcome := CreateOutcome.ok
    pollFuel := 1
    searchAnswer := "yes"
    azureInitOk := true
    embedResult := some [2]
    displayOk := true
    dropAnswer := "yes" }

/-- C10 witness: the search event of a concrete run carries exactly the
fixed pipeline parameters. -/
theorem C10_witness :
    INDEX_NAME = INDEX_NAME ∧ VECTOR_FIELD_PATH = VECTOR_FIELD_PATH ∧
      (150 : Nat) = 150 ∧ (5 : Nat) = 5 :=
  (C10_fixed_parameters envC10w).2 INDEX_NAME VECTOR_FIELD_PATH [2] 150 5
    (some "READY") (by decide)
